import Mathlib

/-!
Shallow embedding of the core logic of the loopmessages client library:
the retry engine (src/utils/retry.ts), the HTTP error classifier
(src/utils/LoopHttpClient.ts), the status poller
(MessageStatusChecker.waitForStatus), the webhook verifier
(src/services/LoopMessageWebhooks.ts) and send-parameter validation
(LoopMessageService.validateMessageParams), together with proofs of the
specified properties.

JavaScript conventions modelled explicitly: an absent (undefined) field is
`Option.none`; JS truthiness on strings treats `""` as falsy and on numbers
treats `0` as falsy; `a || b` falls through to `b` when `a` is falsy.
External JS builtins (Node crypto HMAC, `JSON.parse`, `new URL`) are
parameters of the embedding, since they are not code of this repository.
-/

namespace Loop

/-- JS truthiness of an optional string field: absent or empty is falsy. -/
def strTruthy (v : Option String) : Bool :=
  match v with
  | none => false
  | some s => s ≠ ""

/-- JS expression of the form value-or-default on an optional string field,
modelling a fallback written with the or operator: an absent or empty string
falls back to the default. -/
def jsOrStr (v : Option String) (d : String) : String :=
  match v with
  | none => d
  | some s => if s = "" then d else s

/-- JS expression of the form value-or-default on an optional numeric field:
an absent or zero number falls back to the default. -/
def jsOrInt (v : Option Int) (d : Int) : Int :=
  match v with
  | none => d
  | some n => if n = 0 then d else n

/-! ## Retry engine — src/utils/retry.ts -/

/-- An entry of the nonRetryableErrors array: the TS type is
`Array<number | string>`. -/
inductive CodeOrName where
  | num (n : Int)
  | str (s : String)
deriving DecidableEq, Repr

/-- JS falsiness of a number-or-string value: `0` and `""` are falsy. -/
def CodeOrName.falsy : CodeOrName → Bool
  | .num n => n = 0
  | .str s => s = ""

/-- Shape of a thrown error as inspected by `isNonRetryableError` in
src/utils/retry.ts: an optional `code` field (a number or a string in JS),
an optional numeric `status` field, and the `name` and `constructor.name`
strings. -/
structure RetryErr where
  code : Option CodeOrName
  status : Option Int
  name : String
  ctorName : String
deriving DecidableEq, Repr

/-- The JS expression `(error as any).code || (error as any).status`
(retry.ts line 89): a falsy `code` (absent, `0`, or `""`) falls through to
`status`; the result is `none` when both fall through to undefined. -/
def errorCodeOf (e : RetryErr) : Option CodeOrName :=
  match e.code with
  | some c => if c.falsy then e.status.map CodeOrName.num else some c
  | none => e.status.map CodeOrName.num

/-- Embeds `isNonRetryableError` (retry.ts lines 87-99): when the extracted code is
defined, membership of that code in the list decides; otherwise the error
`name` or constructor name is looked up. -/
def isNonRetryableError (e : RetryErr) (nonRetryableErrors : List CodeOrName) : Bool :=
  match errorCodeOf e with
  | some c => nonRetryableErrors.contains c
  | none =>
      nonRetryableErrors.contains (CodeOrName.str e.name) ||
        nonRetryableErrors.contains (CodeOrName.str e.ctorName)

/-- The while-loop of `retryWithExponentialBackoff` (retry.ts lines 41-77),
from a state with `remaining = maxRetries - currentRetry` retries left.
`op n` is the outcome of the n-th invocation of the wrapped operation
(numbered from 0). Returns the final outcome, the number of invocations
performed, and the list of backoff delays slept, in order. The maxRetries
check (line 48) precedes the non-retryable check (line 56), as in the
source. -/
def retryGo (T : Type) (op : Nat → Except RetryErr T) (baseDelay : Nat)
    (nonRetryableErrors : List CodeOrName) :
    Nat → Nat → Except RetryErr T × Nat × List Nat
  | remaining, currentRetry =>
    match op currentRetry with
    | Except.ok v => (Except.ok v, 1, [])
    | Except.error e =>
      match remaining with
      | 0 => (Except.error e, 1, [])
      | Nat.succ r =>
        if isNonRetryableError e nonRetryableErrors then
          (Except.error e, 1, [])
        else
          let delay := baseDelay * 2 ^ currentRetry
          let rest := retryGo T op baseDelay nonRetryableErrors r (currentRetry + 1)
          (rest.1, rest.2.1 + 1, delay :: rest.2.2)

/-- Embeds `retryWithExponentialBackoff` (retry.ts lines 33-78): runs the loop from
`currentRetry = 0`. The option defaults in the source are `maxRetries = 3`,
`baseDelay = 500` and `nonRetryableErrors = []` (retry.ts line 37). -/
def retryWithExponentialBackoff (T : Type) (op : Nat → Except RetryErr T)
    (maxRetries baseDelay : Nat) (nonRetryableErrors : List CodeOrName) :
    Except RetryErr T × Nat × List Nat :=
  retryGo T op baseDelay nonRetryableErrors maxRetries 0

/-- Default of the `maxRetries` option (retry.ts line 37). -/
def defaultMaxRetries : Nat := 3

/-- Default of the `baseDelay` option (retry.ts line 37). -/
def defaultBaseDelay : Nat := 500

/-- Default of the `nonRetryableErrors` option (retry.ts line 37): the
empty list. -/
def defaultNonRetryableErrors : List CodeOrName := []

/-- The non-retryable code set the HTTP client passes to the retry engine
when the caller supplies none (LoopHttpClient.ts lines 92 and 123). -/
def httpClientNonRetryable : List CodeOrName :=
  [CodeOrName.num 400, CodeOrName.num 401, CodeOrName.num 403, CodeOrName.num 404]

/-! ## Classified errors — src/errors/LoopMessageError.ts -/

/-- The classified error value: `message`, numeric `code`, optional
`cause` (LoopMessageError.ts lines 4-24). -/
structure LoopMessageError where
  message : String
  code : Int
  cause : Option String
deriving DecidableEq, Repr

/-- Embeds `LoopMessageError.authError` (LoopMessageError.ts lines 29-35). -/
def LoopMessageError.authError (details : Option String) : LoopMessageError :=
  ⟨"Authentication failed", 401, some (jsOrStr details "Invalid API credentials")⟩

/-- Embeds `LoopMessageError.missingParamError` (LoopMessageError.ts lines 40-46). -/
def LoopMessageError.missingParamError (param : String) : LoopMessageError :=
  ⟨"Missing required parameter: " ++ param, 400, some "Required parameter missing in request"⟩

/-- Embeds `LoopMessageError.invalidParamError` (LoopMessageError.ts lines 51-57). -/
def LoopMessageError.invalidParamError (param : String) (details : Option String) :
    LoopMessageError :=
  ⟨"Invalid parameter: " ++ param, 400, some (jsOrStr details "Parameter validation failed")⟩

/-- Embeds `LoopMessageError.timeoutError` (LoopMessageError.ts lines 110-116). -/
def LoopMessageError.timeoutError (details : Option String) : LoopMessageError :=
  ⟨"Request timeout", 408, some (jsOrStr details "The request took too long to complete")⟩

/-! ## HTTP error classifier — LoopHttpClient.handleRequestError -/

/-- The API error body `error.response?.data` as read by the classifier:
optional `message` and `code` fields. -/
structure ApiErrorData where
  message : Option String
  code : Option Int
deriving DecidableEq, Repr

/-- The structured HTTP response attached to an axios error, when one
exists: the HTTP status and the decoded error body. -/
structure AxiosResponseInfo where
  status : Int
  data : Option ApiErrorData
deriving DecidableEq, Repr

/-- A transport error as inspected by `handleRequestError`
(LoopHttpClient.ts lines 135-179): whether `axios.isAxiosError` holds, the
optional structured response, and the raw error message. A pure network
failure (connection refused, DNS failure) is an axios error whose
`response` is absent. -/
structure TransportError where
  isAxiosError : Bool
  response : Option AxiosResponseInfo
  message : String
deriving DecidableEq, Repr

/-- Embeds `LoopHttpClient.handleRequestError` (LoopHttpClient.ts lines 135-179).
The function always throws; its value here is the `LoopMessageError` it
throws. `error.response?.status || 500` is modelled by `jsOrInt`. -/
def handleRequestError (e : TransportError) : LoopMessageError :=
  if e.isAxiosError then
    let status := jsOrInt (e.response.map (·.status)) 500
    let errorData := e.response.bind (·.data)
    if status = 404 then
      ⟨"Resource not found", 404,
        some (jsOrStr (errorData.bind (·.message)) "The requested resource does not exist")⟩
    else if status = 401 ∨ status = 403 then
      ⟨"Authentication failed", status, some "Invalid API credentials"⟩
    else if status = 400 then
      ⟨"Invalid request", 400,
        some (jsOrStr (errorData.bind (·.message)) "The request parameters are invalid")⟩
    else
      ⟨jsOrStr (errorData.bind (·.message)) "API request failed",
        jsOrInt (errorData.bind (·.code)) status,
        some e.message⟩
  else
    ⟨"Request failed", 500, some e.message⟩

/-! ## Status poller — MessageStatusChecker (checkStatus, waitForStatus) -/

/-- The closed message status set, `MESSAGE_STATUS` in constants.ts. -/
inductive MessageStatus where
  | processing
  | scheduled
  | failed
  | sent
  | timeout
  | unknown
deriving DecidableEq, Repr

/-- The string value of each `MESSAGE_STATUS` member. -/
def MessageStatus.key : MessageStatus → String
  | .processing => "processing"
  | .scheduled => "scheduled"
  | .failed => "failed"
  | .sent => "sent"
  | .timeout => "timeout"
  | .unknown => "unknown"

/-- Embeds `MessageStatusResponse` (types.ts): the fields of a status check
response that the poller reads or forwards. -/
structure MessageStatusResponse where
  message_id : String
  status : MessageStatus
  recipient : Option String
  error_code : Option Int
  last_update : Option String
deriving DecidableEq, Repr

/-- Events emitted by the status checker, with the payload fields each
carries in the source. `statusCheckStart`/`statusCheckDone` are the two
`STATUS_CHECK` emissions of `checkStatus`; `statusChange` and
`statusTimeout` are the `STATUS_CHANGE` and `STATUS_TIMEOUT` emissions of
`waitForStatus`; `errorEvent` is the generic error emission that follows a
timeout. -/
inductive StatusEvent where
  | statusCheckStart (messageId : String)
  | statusCheckDone (messageId : String) (resp : MessageStatusResponse)
  | statusChange (messageId : String) (oldStatus newStatus : MessageStatus)
      (resp : MessageStatusResponse)
  | statusTimeout (messageId : String) (targetStatuses : List MessageStatus)
      (elapsed : Nat) (attempts : Nat)
  | errorEvent (err : LoopMessageError)
deriving DecidableEq, Repr

/-- The two `STATUS_CHECK` emissions of a successful `checkStatus` call
(part_008 lines 389 and 396). -/
def checkStatusEvents (messageId : String) (resp : MessageStatusResponse) :
    List StatusEvent :=
  [StatusEvent.statusCheckStart messageId, StatusEvent.statusCheckDone messageId resp]

/-- Outcome of `waitForStatus`: a resolved response or a thrown classified
error. -/
inductive WaitOutcome where
  | ok (resp : MessageStatusResponse)
  | err (e : LoopMessageError)
deriving DecidableEq, Repr

/-- The timeout error message built at part_008 lines 443-445. -/
def timeoutMessage (targetStatuses : List MessageStatus) (timeoutMs : Nat) : String :=
  "Message did not reach target status(es) [" ++
    String.intercalate ", " (targetStatuses.map MessageStatus.key) ++
    "] within " ++ toString timeoutMs ++ "ms"

/-- The `STATUS_CHANGE` emission performed after a check (part_008 lines
462-469): emitted exactly when a previous observation exists and differs
from the new status. -/
def changeEvents (messageId : String) (lastStatus : Option MessageStatus)
    (resp : MessageStatusResponse) : List StatusEvent :=
  match lastStatus with
  | some old =>
    if old ≠ resp.status then
      [StatusEvent.statusChange messageId old resp.status resp]
    else []
  | none => []

/-- The while-loop of `MessageStatusChecker.waitForStatus` (part_008 lines
441-491), from a state with `remaining = maxAttempts - attempts` loop
entries left, about to perform the k-th status check. `source k` is the
response of the k-th check (each loop iteration performs exactly one
check); `elapsed k` is the wall-clock time elapsed since `startTime` when
iteration k runs its timeout test. Returns the outcome, the total number
of status checks performed, and the ordered event trace. The fall-through
when attempts are exhausted performs one final unconditional check
(part_008 line 490). -/
def waitGo (messageId : String) (source : Nat → MessageStatusResponse)
    (targetStatuses : List MessageStatus) (timeoutMs : Nat) (elapsed : Nat → Nat) :
    Nat → Nat → Nat → Option MessageStatus → WaitOutcome × Nat × List StatusEvent
  | 0, k, _, _ =>
    (WaitOutcome.ok (source k), 1, checkStatusEvents messageId (source k))
  | Nat.succ r, k, attempts, lastStatus =>
    if 0 < timeoutMs ∧ timeoutMs < elapsed k then
      let err := LoopMessageError.timeoutError (some (timeoutMessage targetStatuses timeoutMs))
      (WaitOutcome.err err, 0,
        [StatusEvent.statusTimeout messageId targetStatuses (elapsed k) attempts,
          StatusEvent.errorEvent err])
    else
      let resp := source k
      let evs := checkStatusEvents messageId resp ++ changeEvents messageId lastStatus resp
      if targetStatuses.contains resp.status then
        (WaitOutcome.ok resp, 1, evs)
      else if resp.status = MessageStatus.failed then
        (WaitOutcome.ok resp, 1, evs)
      else
        let rest := waitGo messageId source targetStatuses timeoutMs elapsed
          r (k + 1) (attempts + 1) (some resp.status)
        (rest.1, rest.2.1 + 1, evs ++ rest.2.2)

/-- Embeds `MessageStatusChecker.waitForStatus` (part_008 lines 420-491), for a
status source that answers every check. The `delayMs` sleeps between
iterations do not change the outcome, check count or event trace and are
not tracked; wall-clock time is supplied through `elapsed`. -/
def waitForStatus (messageId : String) (source : Nat → MessageStatusResponse)
    (targetStatuses : List MessageStatus) (maxAttempts timeoutMs : Nat)
    (elapsed : Nat → Nat) : WaitOutcome × Nat × List StatusEvent :=
  waitGo messageId source targetStatuses timeoutMs elapsed maxAttempts 0 0 none

/-- Default `maxAttempts` (DEFAULTS.STATUS_MAX_ATTEMPTS = 10). -/
def defaultStatusMaxAttempts : Nat := 10

/-- Default `timeoutMs` (DEFAULTS.STATUS_TIMEOUT = 30000). -/
def defaultStatusTimeout : Nat := 30000

/-- Recognizer for `STATUS_CHANGE` events in a trace. -/
def StatusEvent.isChange : StatusEvent → Bool
  | .statusChange _ _ _ _ => true
  | _ => false

/-! ## Webhook verifier — src/services/LoopMessageWebhooks.ts -/

/-- The fields of a parsed webhook payload that `parseWebhook` inspects:
the `type` tag and the `timestamp` (an ISO datetime string in types.ts).
Both are optional because `JSON.parse` may produce an object lacking
them. -/
structure WebhookPayloadFields where
  type : Option String
  timestamp : Option String
deriving DecidableEq, Repr

/-- The payload attached to an emission of the webhook handler: `meta` for
diagnostic objects (body length, signature info, error wrappers), `tsOnly`
for the object holding only the payload timestamp, `full` for the complete
parsed payload. -/
inductive WebhookEmitPayload where
  | meta
  | tsOnly (timestamp : Option String)
  | full (p : WebhookPayloadFields)
deriving DecidableEq, Repr

/-- One emission of the webhook handler: event name and payload shape. -/
structure WebhookEmit where
  name : String
  payload : WebhookEmitPayload
deriving DecidableEq, Repr

/-- Embeds `WebhookHandler.verifySignature` (LoopMessageWebhooks.ts lines
119-165), parameterized by the hex-encoded HMAC-SHA256 function
`hmacSha256Hex secret body` (Node crypto, external to this repository,
modelled as a total function so the catch for a throwing HMAC is
unreachable). Returns the thrown error, if any, and the emissions. -/
def verifySignature (hmacSha256Hex : String → String → String)
    (secretKey body signature : String) :
    Option LoopMessageError × List WebhookEmit :=
  if signature = "" then
    (some (LoopMessageError.invalidParamError "signature"
        (some "Missing webhook signature header")),
      [⟨"signature_error", WebhookEmitPayload.meta⟩])
  else
    let expectedSignature := hmacSha256Hex secretKey body
    if signature ≠ expectedSignature then
      (some (LoopMessageError.authError (some "Invalid webhook signature")),
        [⟨"signature_error", WebhookEmitPayload.meta⟩])
    else (none, [])

/-- Embeds `WebhookHandler.parseWebhook` (LoopMessageWebhooks.ts lines 50-110),
parameterized by the HMAC function and by `parseJson`, modelling
`JSON.parse` (external JS builtin): `none` is a SyntaxError, `some p` the
object's `type`/`timestamp` fields. Returns the result (parsed payload or
thrown classified error) and the ordered emission trace. -/
def parseWebhook (hmacSha256Hex : String → String → String)
    (parseJson : String → Option WebhookPayloadFields)
    (secretKey body signature : String) :
    Except LoopMessageError WebhookPayloadFields × List WebhookEmit :=
  let received : List WebhookEmit := [⟨"webhook_received", WebhookEmitPayload.meta⟩]
  match verifySignature hmacSha256Hex secretKey body signature with
  | (some e, evs) => (Except.error e, received ++ evs)
  | (none, _) =>
    let verified : List WebhookEmit := [⟨"webhook_verified", WebhookEmitPayload.meta⟩]
    match parseJson body with
    | none =>
      (Except.error (LoopMessageError.invalidParamError "webhook"
          (some "Invalid webhook payload: invalid JSON")),
        received ++ verified ++ [⟨"webhook_parse_error", WebhookEmitPayload.meta⟩])
    | some payload =>
      if ¬ strTruthy payload.type ∨ ¬ strTruthy payload.timestamp then
        (Except.error (LoopMessageError.invalidParamError "webhook"
            (some "Invalid webhook payload: missing required fields")),
          received ++ verified ++
            [⟨"webhook_invalid", WebhookEmitPayload.meta⟩,
              ⟨"webhook_invalid", WebhookEmitPayload.meta⟩])
      else
        (Except.ok payload,
          received ++ verified ++
            [⟨payload.type.getD "", WebhookEmitPayload.tsOnly payload.timestamp⟩,
              ⟨payload.type.getD "", WebhookEmitPayload.full payload⟩,
              ⟨"webhook", WebhookEmitPayload.full payload⟩])

/-! ## Send-parameter validation — LoopMessageService.validateMessageParams
and src/utils/validators.ts -/

/-- Embeds `SendMessageParams` (types.ts), restricted to the fields
`validateMessageParams` inspects. Optional string fields use `none` for
absent; `audio_message` is a boolean flag. -/
structure SendMessageParams where
  recipient : Option String
  group : Option String
  text : Option String
  attachments : Option (List String)
  audio_message : Bool
  media_url : Option String
  reaction : Option String
  message_id : Option String
  effect : Option String
  subject : Option String
  reply_to_id : Option String
  service : Option String
  timeout : Option Int
  status_callback : Option String
  passthrough : Option String
  sender_name : Option String
deriving DecidableEq, Repr

/-- The PHONE_REGEX test `^\+[0-9]{5,15}$` of validators.ts. -/
def phoneRegexTest (s : String) : Bool :=
  match s.data with
  | '+' :: ds => ds.all (·.isDigit) && decide (5 ≤ ds.length) && decide (ds.length ≤ 15)
  | _ => false

/-- The EMAIL_REGEX test of validators.ts: the anchored pattern with a
non-whitespace non-at local part, a single at sign, and a domain holding a
dot with nonempty sides, no whitespace anywhere. -/
def emailRegexTest (s : String) : Bool :=
  match s.split (· = '@') with
  | [localPart, domain] =>
    localPart ≠ "" && localPart.data.all (fun c => !c.isWhitespace) &&
      domain.data.all (fun c => !c.isWhitespace) &&
      ((domain.data.drop 1).dropLast.contains '.')
  | _ => false

/-- Embeds `validators.validateMessageText` (validators.ts): missing or blank
text is a missing-parameter error, text longer than
LIMITS.MAX_TEXT_LENGTH = 10000 is an invalid-parameter error. -/
def validateMessageText (text : Option String) : Option LoopMessageError :=
  if ¬ strTruthy text ∨ (text.getD "").trim = "" then
    some (LoopMessageError.missingParamError "Text is required")
  else if 10000 < (text.getD "").length then
    some (LoopMessageError.invalidParamError "text"
      (some "Text exceeds maximum length of 10000 characters"))
  else none

/-- Embeds `validators.validateRecipient` (validators.ts): an address holding an
at sign is validated as email, otherwise as phone number. Only called with
a truthy recipient. -/
def validateRecipient (recipient : String) : Option LoopMessageError :=
  if recipient.data.contains '@' then
    if emailRegexTest recipient then none
    else some (LoopMessageError.invalidParamError "recipient" (some "Invalid email format"))
  else
    if phoneRegexTest recipient then none
    else some (LoopMessageError.invalidParamError "recipient"
      (some "Phone number must start with + and contain 5-15 digits"))

/-- Embeds `validators.validateUrl` (validators.ts), parameterized by
`urlCanParse`, modelling whether the JS builtin `new URL(url)` succeeds
(external to this repository): a parse failure is an invalid-URL error,
a parsed URL without the https scheme is a not-https error. -/
def validateUrl (urlCanParse : String → Bool) (url : String) (paramName : String) :
    Option LoopMessageError :=
  if ¬ urlCanParse url then
    some (LoopMessageError.invalidParamError paramName (some "Invalid URL format"))
  else if ¬ url.startsWith "https://" then
    some (LoopMessageError.invalidParamError paramName (some "URL must use HTTPS protocol"))
  else none

/-- Embeds `validators.validateAttachments` (validators.ts): an empty array
passes, more than LIMITS.MAX_ATTACHMENTS = 3 entries is an error,
otherwise each URL is validated. -/
def validateAttachments (urlCanParse : String → Bool) (attachments : List String) :
    Option LoopMessageError :=
  if attachments.isEmpty then none
  else if 3 < attachments.length then
    some (LoopMessageError.invalidParamError "attachments"
      (some "Maximum of 3 attachments allowed"))
  else attachments.findSome? (fun url => validateUrl urlCanParse url "attachments")

/-- The VALIDATION.EFFECTS list of constants.ts. -/
def validEffects : List String :=
  ["slam", "loud", "gentle", "invisibleInk", "echo", "spotlight", "balloons",
    "confetti", "love", "lasers", "fireworks", "shootingStar", "celebration"]

/-- The VALIDATION.REACTIONS list of constants.ts. -/
def validReactions : List String :=
  ["love", "like", "dislike", "laugh", "exclaim", "question",
    "-love", "-like", "-dislike", "-laugh", "-exclaim", "-question"]

/-- Embeds `validators.validateMessageEffect` (validators.ts). Only called with a
truthy effect. -/
def validateMessageEffect (effect : String) : Option LoopMessageError :=
  if validEffects.contains effect then none
  else some (LoopMessageError.invalidParamError "effect"
    (some ("Invalid effect. Must be one of: " ++ String.intercalate ", " validEffects)))

/-- Embeds `validators.validateMessageReaction` (validators.ts). Only called with
a truthy reaction. -/
def validateMessageReaction (reaction : String) : Option LoopMessageError :=
  if validReactions.contains reaction then none
  else some (LoopMessageError.invalidParamError "reaction"
    (some ("Invalid reaction. Must be one of: " ++ String.intercalate ", " validReactions)))

/-- The ordered list of checks run by
`LoopMessageService.validateMessageParams` (part_008 lines 556-656); each
entry is the error that check throws, or `none` when it passes. The
function throws the first error in this list. -/
def messageChecks (urlCanParse : String → Bool) (p : SendMessageParams) :
    List (Option LoopMessageError) :=
  [ if ¬ strTruthy p.recipient ∧ ¬ strTruthy p.group then
      some (LoopMessageError.missingParamError "recipient or group")
    else none,
    if strTruthy p.recipient ∧ strTruthy p.group then
      some (LoopMessageError.invalidParamError "recipient and group"
        (some "Provide either recipient or group, not both"))
    else none,
    validateMessageText p.text,
    if strTruthy p.recipient then validateRecipient (p.recipient.getD "") else none,
    match p.attachments with
    | some l => validateAttachments urlCanParse l
    | none => none,
    if p.audio_message ∧ ¬ strTruthy p.media_url then
      some (LoopMessageError.missingParamError "media_url for audio message")
    else none,
    if strTruthy p.reaction ∧ ¬ strTruthy p.message_id then
      some (LoopMessageError.missingParamError "message_id for reaction")
    else none,
    if strTruthy p.effect ∧ strTruthy p.reaction then
      some (LoopMessageError.invalidParamError "effect and reaction"
        (some "Cannot use both effect and reaction in the same request"))
    else none,
    if strTruthy p.effect then validateMessageEffect (p.effect.getD "") else none,
    if strTruthy p.reaction then validateMessageReaction (p.reaction.getD "") else none,
    if p.service = some "sms" ∧
        (strTruthy p.subject ∨ strTruthy p.effect ∨ strTruthy p.reply_to_id) then
      some (LoopMessageError.invalidParamError "service"
        (some "SMS does not support subject, effect, or reply_to_id parameters"))
    else none,
    if p.service = some "sms" ∧ strTruthy p.recipient ∧
        (p.recipient.getD "").data.contains '@' then
      some (LoopMessageError.invalidParamError "recipient"
        (some "Cannot send SMS to an email address"))
    else none,
    if p.service = some "sms" ∧ strTruthy p.group then
      some (LoopMessageError.invalidParamError "group" (some "Cannot send SMS to a group"))
    else none,
    match p.timeout with
    | some t =>
      if t < 5 then
        some (LoopMessageError.invalidParamError "timeout"
          (some "Timeout must be at least 5 seconds"))
      else none
    | none => none,
    if strTruthy p.status_callback then
      validateUrl urlCanParse (p.status_callback.getD "") "status_callback"
    else none,
    if strTruthy p.passthrough then
      if 1000 < (p.passthrough.getD "").length then
        some (LoopMessageError.invalidParamError "passthrough"
          (some "Passthrough exceeds maximum length of 1000 characters"))
      else none
    else none ]

/-- Embeds `LoopMessageService.validateMessageParams` (part_008 lines 556-656):
the first error among the sequential checks, or `none` when validation
passes. -/
def validateMessageParams (urlCanParse : String → Bool) (p : SendMessageParams) :
    Option LoopMessageError :=
  (messageChecks urlCanParse p).findSome? id

/-- A send response as decoded from the API (types.ts
LoopMessageSendResponse, restricted to the fields the tests exercise). -/
structure LoopMessageSendResponse where
  message_id : String
  success : Bool
deriving DecidableEq, Repr

/-- The spread `{ ...params, sender_name: this.config.senderName }` at
part_008 lines 669-672. -/
def setSenderName (p : SendMessageParams) (s : String) : SendMessageParams :=
  ⟨p.recipient, p.group, p.text, p.attachments, p.audio_message, p.media_url, p.reaction,
    p.message_id, p.effect, p.subject, p.reply_to_id, p.service, p.timeout,
    p.status_callback, p.passthrough, some s⟩

/-- Embeds `LoopMessageService.sendLoopMessage` (part_008 lines 665-703): merges
the configured sender name into the params, validates, and only then
performs the network request (modelled by `net`). The boolean records
whether the network was reached. -/
def sendLoopMessage (urlCanParse : String → Bool) (senderName : String)
    (net : SendMessageParams → Except LoopMessageError LoopMessageSendResponse)
    (p : SendMessageParams) :
    Except LoopMessageError LoopMessageSendResponse × Bool :=
  let fullParams := setSenderName p senderName
  match validateMessageParams urlCanParse fullParams with
  | some e => (Except.error e, false)
  | none => (net fullParams, true)

/-! ## Shared helper lemmas -/

/-- A successful findSome? over an explicit option list returns one of its
members. -/
theorem mem_of_findSome?_id {α : Type} :
    ∀ {l : List (Option α)} {a : α}, l.findSome? id = some a → some a ∈ l := by
  intro l
  induction l with
  | nil => intro a h; simp [List.findSome?] at h
  | cons o t ih =>
    intro a h
    cases o with
    | none =>
      rw [List.findSome?_cons] at h
      exact List.mem_cons_of_mem _ (ih h)
    | some b =>
      rw [List.findSome?_cons] at h
      simp at h
      simp [h]

/-- If a non-retryable error is thrown on the current attempt, the loop
stops at once: one invocation, no sleeps, the error rethrown. Holds both
through the exhaustion branch (`remaining = 0`) and the non-retryable
branch. -/
theorem retryGo_stops_on_nonRetryable (T : Type) (op : Nat → Except RetryErr T)
    (baseDelay : Nat) (nre : List CodeOrName) (remaining currentRetry : Nat) (e : RetryErr)
    (hop : op currentRetry = Except.error e)
    (hnr : isNonRetryableError e nre = true) :
    retryGo T op baseDelay nre remaining currentRetry = (Except.error e, 1, []) := by
  cases remaining with
  | zero => simp [retryGo, hop]
  | succ r => simp [retryGo, hop, hnr]

/-- Appending the geometric head delay to the shifted tail of delays gives
the unshifted delay table. -/
theorem cons_map_range_pow (b c r : Nat) :
    b * 2 ^ c :: (List.range r).map (fun j => b * 2 ^ (c + 1 + j)) =
      (List.range (r + 1)).map (fun j => b * 2 ^ (c + j)) := by
  rw [List.range_succ_eq_map]
  simp only [List.map_cons, List.map_map]
  refine List.cons_eq_cons.mpr ⟨by simp, ?_⟩
  apply List.map_congr_left
  intro j _
  simp only [Function.comp_apply]
  have hj : c + 1 + j = c + j.succ := by omega
  rw [hj]

/-- The retry loop under an operation that fails retryably on every
attempt: it runs the full budget, sleeps the geometric delays, and
rethrows the last error. -/
theorem retryGo_all_retryable (T : Type) (op : Nat → Except RetryErr T)
    (errs : Nat → RetryErr) (baseDelay : Nat) (nre : List CodeOrName) :
    ∀ remaining currentRetry,
      (∀ i, currentRetry ≤ i → i ≤ currentRetry + remaining → op i = Except.error (errs i)) →
      (∀ i, currentRetry ≤ i → i ≤ currentRetry + remaining →
        isNonRetryableError (errs i) nre = false) →
      retryGo T op baseDelay nre remaining currentRetry =
        (Except.error (errs (currentRetry + remaining)), remaining + 1,
          (List.range remaining).map (fun j => baseDelay * 2 ^ (currentRetry + j))) := by
  intro remaining
  induction remaining with
  | zero =>
    intro c hop _
    simp [retryGo, hop c (Nat.le_refl c) (by omega)]
  | succ r ih =>
    intro c hop hnr
    have hopc := hop c (Nat.le_refl c) (by omega)
    have hnrc := hnr c (Nat.le_refl c) (by omega)
    have hrec := ih (c + 1) (fun i h1 h2 => hop i (by omega) (by omega))
      (fun i h1 h2 => hnr i (by omega) (by omega))
    simp only [retryGo, hopc, hnrc, Bool.false_eq_true, if_false, hrec]
    refine Prod.ext ?_ (Prod.ext ?_ ?_)
    · simp only
      congr 2
      omega
    · simp
    · simp only
      exact cons_map_range_pow baseDelay c r

/-! ## Claims -/

/-- C1 counterexample: with the retry engine's own option defaults the
non-retryable set is empty (retry.ts line 37), so an operation that always
throws an error carrying code 400 is invoked 4 times (maxRetries 3 + 1)
with three sleeps, not exactly once as the claim's default reading
states. -/
theorem retry_default_options_do_retry_400 :
    (retryWithExponentialBackoff Unit
        (fun _ => Except.error ⟨some (CodeOrName.num 400), none,
          "LoopMessageError", "LoopMessageError"⟩)
        defaultMaxRetries defaultBaseDelay defaultNonRetryableErrors).2 =
      (4, [500, 1000, 2000]) ∧ (4 : Nat) ≠ 1 := by
  constructor
  · rfl
  · decide

/-- C1 (amended): when the non-retryable set {400, 401, 403, 404} is in
force — as the HTTP client supplies by default (LoopHttpClient.ts lines 92
and 123); the retry engine's own default set is empty — an operation whose
first invocation throws an error carrying one of those numeric codes is
invoked exactly once and the error is rethrown with no sleeping and no
retry, for every maxRetries and baseDelay. -/
theorem retry_nonRetryable_code_single_invocation (T : Type)
    (op : Nat → Except RetryErr T) (maxRetries baseDelay : Nat) (e : RetryErr) (c : Int)
    (hop : op 0 = Except.error e)
    (hcode : errorCodeOf e = some (CodeOrName.num c))
    (hmem : c = 400 ∨ c = 401 ∨ c = 403 ∨ c = 404) :
    retryWithExponentialBackoff T op maxRetries baseDelay httpClientNonRetryable =
      (Except.error e, 1, []) := by
  have hnr : isNonRetryableError e httpClientNonRetryable = true := by
    unfold isNonRetryableError
    rw [hcode]
    rcases hmem with h | h | h | h <;> subst h <;> rfl
  exact retryGo_stops_on_nonRetryable T op baseDelay httpClientNonRetryable maxRetries 0 e hop hnr

/-- C1 witness: a 403-coded error with the claim's set in force is
rethrown after exactly one invocation. -/
theorem retry_nonRetryable_code_single_invocation_witness :
    retryWithExponentialBackoff Unit
        (fun _ => Except.error ⟨some (CodeOrName.num 403), none,
          "LoopMessageError", "LoopMessageError"⟩)
        3 500 httpClientNonRetryable =
      (Except.error ⟨some (CodeOrName.num 403), none,
        "LoopMessageError", "LoopMessageError"⟩, 1, []) :=
  retry_nonRetryable_code_single_invocation Unit _ 3 500 _ 403 rfl rfl
    (Or.inr (Or.inr (Or.inl rfl)))

/-- C2: when the operation fails on every attempt with a retryable error,
the engine invokes it exactly maxRetries + 1 times, sleeps
baseDelay * 2 ^ (i - 1) before the i-th retry (1-indexed), and finally
rethrows the last attempt's error. -/
theorem retry_retryable_exhausts_budget (T : Type) (op : Nat → Except RetryErr T)
    (errs : Nat → RetryErr) (maxRetries baseDelay : Nat) (nre : List CodeOrName)
    (hop : ∀ i, i ≤ maxRetries → op i = Except.error (errs i))
    (hnr : ∀ i, i ≤ maxRetries → isNonRetryableError (errs i) nre = false) :
    retryWithExponentialBackoff T op maxRetries baseDelay nre =
      (Except.error (errs maxRetries), maxRetries + 1,
        (List.range maxRetries).map (fun j => baseDelay * 2 ^ j)) ∧
    ∀ i, 1 ≤ i → i ≤ maxRetries →
      ((retryWithExponentialBackoff T op maxRetries baseDelay nre).2.2)[i - 1]? =
        some (baseDelay * 2 ^ (i - 1)) := by
  have hmain := retryGo_all_retryable T op errs baseDelay nre maxRetries 0
    (fun i _ h2 => hop i (by omega)) (fun i _ h2 => hnr i (by omega))
  simp only [Nat.zero_add] at hmain
  constructor
  · exact hmain
  · intro i h1 h2
    have hm2 : retryWithExponentialBackoff T op maxRetries baseDelay nre =
        (Except.error (errs maxRetries), maxRetries + 1,
          (List.range maxRetries).map (fun j => baseDelay * 2 ^ j)) := hmain
    rw [hm2]
    simp only [List.getElem?_map, List.getElem?_range (by omega : i - 1 < maxRetries)]
    rfl

/-- C2 witness: two retries at base delay 100 yield three invocations and
the delays 100 and 200 before the first and second retry. -/
theorem retry_retryable_exhausts_budget_witness :
    retryWithExponentialBackoff Unit
        (fun _ => Except.error ⟨some (CodeOrName.num 500), none, "E", "E"⟩)
        2 100 [] =
      (Except.error ⟨some (CodeOrName.num 500), none, "E", "E"⟩, 3,
        (List.range 2).map (fun j => 100 * 2 ^ j)) :=
  (retry_retryable_exhausts_budget Unit _
    (fun _ => ⟨some (CodeOrName.num 500), none, "E", "E"⟩) 2 100 []
    (fun _ _ => rfl) (fun _ _ => rfl)).1

/-- C10: for an error whose code field is falsy (such as the network
failure code 0) and which has no status field, the non-retryable check
falls through to the name and constructor-name lookup, so numeric entries
of the set — in particular a listed 0 — are ignored and never suppress a
retry. -/
theorem nonRetryable_falsy_code_matches_names_only (e : RetryErr) (nre : List CodeOrName)
    (hcode : e.code = some (CodeOrName.num 0)) (hstatus : e.status = none) :
    isNonRetryableError e nre =
      (nre.contains (CodeOrName.str e.name) || nre.contains (CodeOrName.str e.ctorName)) ∧
    isNonRetryableError e (CodeOrName.num 0 :: nre) = isNonRetryableError e nre := by
  have hec : errorCodeOf e = none := by
    unfold errorCodeOf
    rw [hcode, hstatus]
    rfl
  unfold isNonRetryableError
  rw [hec]
  constructor
  · rfl
  · simp [List.contains_cons]

/-- C10 witness: the network-failure shape (code 0, no status) with 0
listed in the non-retryable set still fails the non-retryable check. -/
theorem nonRetryable_falsy_code_matches_names_only_witness :
    isNonRetryableError ⟨some (CodeOrName.num 0), none, "LoopMessageError", "LoopMessageError"⟩
        [CodeOrName.num 0] =
      ([CodeOrName.num 0].contains (CodeOrName.str "LoopMessageError") ||
        [CodeOrName.num 0].contains (CodeOrName.str "LoopMessageError")) ∧
    isNonRetryableError ⟨some (CodeOrName.num 0), none, "LoopMessageError", "LoopMessageError"⟩
        [CodeOrName.num 0, CodeOrName.num 0] =
      isNonRetryableError
        ⟨some (CodeOrName.num 0), none, "LoopMessageError", "LoopMessageError"⟩
        [CodeOrName.num 0] :=
  nonRetryable_falsy_code_matches_names_only
    ⟨some (CodeOrName.num 0), none, "LoopMessageError", "LoopMessageError"⟩
    [CodeOrName.num 0] rfl rfl

/-- C3 counterexample: a connection-refused transport failure is an axios
error without a structured response, and the classifier gives it the
message "API request failed" (the generic API branch), not "Request
failed" as the claim states; code and cause match the claim. -/
theorem classifier_no_response_message_differs :
    handleRequestError ⟨true, none, "connect ECONNREFUSED 127.0.0.1:443"⟩ =
      ⟨"API request failed", 500, some "connect ECONNREFUSED 127.0.0.1:443"⟩ ∧
    ("API request failed" : String) ≠ "Request failed" := by
  constructor
  · rfl
  · decide

/-- C3 (amended): every transport error without a structured HTTP response
is classified with code 500 and cause equal to the underlying error's
message; the message is "API request failed" when the error is an axios
error (connection refused, DNS failure and the like) and "Request failed"
only when it is not an axios error. -/
theorem classifier_no_response (e : TransportError) (hresp : e.response = none) :
    handleRequestError e =
      (if e.isAxiosError then ⟨"API request failed", 500, some e.message⟩
        else (⟨"Request failed", 500, some e.message⟩ : LoopMessageError)) := by
  unfold handleRequestError
  rw [hresp]
  by_cases h : e.isAxiosError <;>
    simp [h, jsOrInt, jsOrStr]

/-- C3 witness: concrete axios and non-axios errors with no response. -/
theorem classifier_no_response_witness :
    handleRequestError ⟨true, none, "getaddrinfo ENOTFOUND server.loopmessage.com"⟩ =
      (if true then
          ⟨"API request failed", 500, some "getaddrinfo ENOTFOUND server.loopmessage.com"⟩
        else (⟨"Request failed", 500,
          some "getaddrinfo ENOTFOUND server.loopmessage.com"⟩ : LoopMessageError)) :=
  classifier_no_response ⟨true, none, "getaddrinfo ENOTFOUND server.loopmessage.com"⟩ rfl

/-- Poller loop, timeout branch: when time is up at the head of an
iteration that still has attempt budget, the loop stops with the
timeout error after emitting the timeout and error events. -/
theorem waitGo_step_timeout (messageId : String) (source : Nat → MessageStatusResponse)
    (targetStatuses : List MessageStatus) (timeoutMs : Nat) (elapsed : Nat → Nat)
    (remaining k attempts : Nat) (lastStatus : Option MessageStatus)
    (hrem : 0 < remaining) (h1 : 0 < timeoutMs) (h2 : timeoutMs < elapsed k) :
    waitGo messageId source targetStatuses timeoutMs elapsed remaining k attempts lastStatus =
      (WaitOutcome.err (LoopMessageError.timeoutError
          (some (timeoutMessage targetStatuses timeoutMs))), 0,
        [StatusEvent.statusTimeout messageId targetStatuses (elapsed k) attempts,
          StatusEvent.errorEvent (LoopMessageError.timeoutError
            (some (timeoutMessage targetStatuses timeoutMs)))]) := by
  obtain ⟨r, rfl⟩ : ∃ r, remaining = r + 1 := ⟨remaining - 1, by omega⟩
  simp [waitGo, h1, h2]

/-- Poller loop, return branch: when no timeout fires and the checked
status is in the target set or equals failed, the loop resolves with that
response after exactly this one check. -/
theorem waitGo_step_return (messageId : String) (source : Nat → MessageStatusResponse)
    (targetStatuses : List MessageStatus) (timeoutMs : Nat) (elapsed : Nat → Nat)
    (remaining k attempts : Nat) (lastStatus : Option MessageStatus)
    (hrem : 0 < remaining)
    (hnt : ¬ (0 < timeoutMs ∧ timeoutMs < elapsed k))
    (hret : targetStatuses.contains (source k).status = true ∨
      (source k).status = MessageStatus.failed) :
    waitGo messageId source targetStatuses timeoutMs elapsed remaining k attempts lastStatus =
      (WaitOutcome.ok (source k), 1,
        checkStatusEvents messageId (source k) ++
          changeEvents messageId lastStatus (source k)) := by
  obtain ⟨r, rfl⟩ : ∃ r, remaining = r + 1 := ⟨remaining - 1, by omega⟩
  simp only [waitGo]
  rw [if_neg hnt]
  rcases hret with h | h
  · rw [if_pos h]
  · by_cases hcontains : targetStatuses.contains (source k).status = true
    · rw [if_pos hcontains]
    · rw [if_neg hcontains, if_pos h]

/-- Poller loop, continue branch: when no timeout fires and the checked
status is neither a target nor failed, the loop recurses with one more
attempt, one more check and the events of this iteration in front. -/
theorem waitGo_step_continue (messageId : String) (source : Nat → MessageStatusResponse)
    (targetStatuses : List MessageStatus) (timeoutMs : Nat) (elapsed : Nat → Nat)
    (remaining k attempts : Nat) (lastStatus : Option MessageStatus)
    (hrem : 0 < remaining)
    (hnt : ¬ (0 < timeoutMs ∧ timeoutMs < elapsed k))
    (hc : targetStatuses.contains (source k).status = false)
    (hf : (source k).status ≠ MessageStatus.failed) :
    waitGo messageId source targetStatuses timeoutMs elapsed remaining k attempts lastStatus =
      ((waitGo messageId source targetStatuses timeoutMs elapsed
          (remaining - 1) (k + 1) (attempts + 1) (some (source k).status)).1,
        (waitGo messageId source targetStatuses timeoutMs elapsed
          (remaining - 1) (k + 1) (attempts + 1) (some (source k).status)).2.1 + 1,
        (checkStatusEvents messageId (source k) ++
            changeEvents messageId lastStatus (source k)) ++
          (waitGo messageId source targetStatuses timeoutMs elapsed
            (remaining - 1) (k + 1) (attempts + 1) (some (source k).status)).2.2) := by
  obtain ⟨r, rfl⟩ : ∃ r, remaining = r + 1 := ⟨remaining - 1, by omega⟩
  simp only [waitGo]
  rw [if_neg hnt]
  rw [if_neg (by rw [hc]; exact Bool.false_ne_true)]
  rw [if_neg hf]
  simp only [Nat.add_sub_cancel]

/-- C4: a check that reports status failed makes the wait resolve
immediately with that response — no throw, no further checks — for every
target set, even when failed is not in it (first conjunct, over every
reachable loop state); in particular, against a source whose first call
reports processing and whose second call reports failed, the call
targeting sent resolves with the failed response after exactly 2 status
checks (second conjunct). -/
theorem waitForStatus_failed_short_circuits (messageId : String)
    (source : Nat → MessageStatusResponse) (elapsed : Nat → Nat)
    (maxAttempts timeoutMs : Nat)
    (hmax : 2 ≤ maxAttempts)
    (h0 : (source 0).status = MessageStatus.processing)
    (h1 : (source 1).status = MessageStatus.failed)
    (he0 : elapsed 0 ≤ timeoutMs) (he1 : elapsed 1 ≤ timeoutMs) :
    (∀ targetStatuses remaining k attempts lastStatus, 0 < remaining →
      ¬ (0 < timeoutMs ∧ timeoutMs < elapsed k) →
      (source k).status = MessageStatus.failed →
      waitGo messageId source targetStatuses timeoutMs elapsed
          remaining k attempts lastStatus =
        (WaitOutcome.ok (source k), 1,
          checkStatusEvents messageId (source k) ++
            changeEvents messageId lastStatus (source k))) ∧
    waitForStatus messageId source [MessageStatus.sent] maxAttempts timeoutMs elapsed =
      (WaitOutcome.ok (source 1), 2,
        [StatusEvent.statusCheckStart messageId,
          StatusEvent.statusCheckDone messageId (source 0),
          StatusEvent.statusCheckStart messageId,
          StatusEvent.statusCheckDone messageId (source 1),
          StatusEvent.statusChange messageId MessageStatus.processing MessageStatus.failed
            (source 1)]) := by
  refine ⟨fun targetStatuses remaining k attempts lastStatus hrem hnt hfail =>
    waitGo_step_return messageId source targetStatuses timeoutMs elapsed
      remaining k attempts lastStatus hrem hnt (Or.inr hfail), ?_⟩
  have hnt0 : ¬ (0 < timeoutMs ∧ timeoutMs < elapsed 0) := by omega
  have hnt1 : ¬ (0 < timeoutMs ∧ timeoutMs < elapsed 1) := by omega
  have hc0 : ([MessageStatus.sent] : List MessageStatus).contains (source 0).status = false := by
    rw [h0]
    rfl
  have hf0 : (source 0).status ≠ MessageStatus.failed := by
    rw [h0]
    intro hcontra
    exact absurd hcontra (by decide)
  unfold waitForStatus
  rw [waitGo_step_continue messageId source [MessageStatus.sent] timeoutMs elapsed
    maxAttempts 0 0 none (by omega) hnt0 hc0 hf0]
  rw [waitGo_step_return messageId source [MessageStatus.sent] timeoutMs elapsed
    (maxAttempts - 1) 1 1 (some (source 0).status) (by omega) hnt1 (Or.inr h1)]
  simp [checkStatusEvents, changeEvents, h0, h1]

/-- C4 witness: the concrete two-call scenario at the default options. -/
theorem waitForStatus_failed_short_circuits_witness :
    waitForStatus "m"
        (fun k =>
          if k = 0 then ⟨"m", MessageStatus.processing, none, none, none⟩
          else if k = 1 then ⟨"m", MessageStatus.failed, none, none, none⟩
          else ⟨"m", MessageStatus.unknown, none, none, none⟩)
        [MessageStatus.sent] defaultStatusMaxAttempts defaultStatusTimeout (fun _ => 0) =
      (WaitOutcome.ok ⟨"m", MessageStatus.failed, none, none, none⟩, 2,
        [StatusEvent.statusCheckStart "m",
          StatusEvent.statusCheckDone "m" ⟨"m", MessageStatus.processing, none, none, none⟩,
          StatusEvent.statusCheckStart "m",
          StatusEvent.statusCheckDone "m" ⟨"m", MessageStatus.failed, none, none, none⟩,
          StatusEvent.statusChange "m" MessageStatus.processing MessageStatus.failed
            ⟨"m", MessageStatus.failed, none, none, none⟩]) :=
  (waitForStatus_failed_short_circuits "m" _ (fun _ => 0)
    defaultStatusMaxAttempts defaultStatusTimeout (by decide) rfl rfl
    (by decide) (by decide)).2

/-- C5: at any loop iteration that still has attempt budget — regardless
of how much budget remains — if timeoutMs is positive and the elapsed
wall-clock time exceeds it, the wait rejects with the timeout-classified
error of code 408, after emitting a timeout notification carrying the
target set, the elapsed time and the attempts made. waitForStatus is this
loop started at remaining = maxAttempts, k = 0, attempts = 0. -/
theorem waitForStatus_timeout_hard_stop (messageId : String)
    (source : Nat → MessageStatusResponse) (targetStatuses : List MessageStatus)
    (timeoutMs : Nat) (elapsed : Nat → Nat) (remaining k attempts : Nat)
    (lastStatus : Option MessageStatus)
    (hrem : 0 < remaining) (h1 : 0 < timeoutMs) (h2 : timeoutMs < elapsed k) :
    waitGo messageId source targetStatuses timeoutMs elapsed remaining k attempts lastStatus =
      (WaitOutcome.err (LoopMessageError.timeoutError
          (some (timeoutMessage targetStatuses timeoutMs))), 0,
        [StatusEvent.statusTimeout messageId targetStatuses (elapsed k) attempts,
          StatusEvent.errorEvent (LoopMessageError.timeoutError
            (some (timeoutMessage targetStatuses timeoutMs)))]) ∧
    (LoopMessageError.timeoutError (some (timeoutMessage targetStatuses timeoutMs))).code =
      408 :=
  ⟨waitGo_step_timeout messageId source targetStatuses timeoutMs elapsed
    remaining k attempts lastStatus hrem h1 h2, rfl⟩

/-- C5 witness: a poll with timeoutMs = 50 whose second iteration starts
at 60ms elapsed rejects with the 408 error after one attempt. -/
theorem waitForStatus_timeout_hard_stop_witness :
    waitGo "m" (fun _ => ⟨"m", MessageStatus.processing, none, none, none⟩)
        [MessageStatus.sent] 50 (fun k => 60 * k) 9 1 1
        (some MessageStatus.processing) =
      (WaitOutcome.err (LoopMessageError.timeoutError
          (some (timeoutMessage [MessageStatus.sent] 50))), 0,
        [StatusEvent.statusTimeout "m" [MessageStatus.sent] 60 1,
          StatusEvent.errorEvent (LoopMessageError.timeoutError
            (some (timeoutMessage [MessageStatus.sent] 50)))]) ∧
    (LoopMessageError.timeoutError (some (timeoutMessage [MessageStatus.sent] 50))).code =
      408 :=
  waitForStatus_timeout_hard_stop "m" _ [MessageStatus.sent] 50 (fun k => 60 * k)
    9 1 1 (some MessageStatus.processing) (by decide) (by decide) (by decide)

/-- C6: a status-changed notification is emitted exactly when a check
returns a status different from a previously observed one; against a
source reporting processing, scheduled, sent with target sent, the call
resolves with the sent response after 3 checks and the trace holds exactly
the two change notifications processing→scheduled and scheduled→sent. -/
theorem waitForStatus_change_notifications (messageId : String)
    (source : Nat → MessageStatusResponse) (elapsed : Nat → Nat)
    (maxAttempts timeoutMs : Nat)
    (hmax : 3 ≤ maxAttempts)
    (h0 : (source 0).status = MessageStatus.processing)
    (h1 : (source 1).status = MessageStatus.scheduled)
    (h2 : (source 2).status = MessageStatus.sent)
    (he0 : elapsed 0 ≤ timeoutMs) (he1 : elapsed 1 ≤ timeoutMs)
    (he2 : elapsed 2 ≤ timeoutMs) :
    waitForStatus messageId source [MessageStatus.sent] maxAttempts timeoutMs elapsed =
      (WaitOutcome.ok (source 2), 3,
        [StatusEvent.statusCheckStart messageId,
          StatusEvent.statusCheckDone messageId (source 0),
          StatusEvent.statusCheckStart messageId,
          StatusEvent.statusCheckDone messageId (source 1),
          StatusEvent.statusChange messageId MessageStatus.processing MessageStatus.scheduled
            (source 1),
          StatusEvent.statusCheckStart messageId,
          StatusEvent.statusCheckDone messageId (source 2),
          StatusEvent.statusChange messageId MessageStatus.scheduled MessageStatus.sent
            (source 2)]) ∧
    ((waitForStatus messageId source [MessageStatus.sent] maxAttempts timeoutMs
        elapsed).2.2.filter StatusEvent.isChange) =
      [StatusEvent.statusChange messageId MessageStatus.processing MessageStatus.scheduled
          (source 1),
        StatusEvent.statusChange messageId MessageStatus.scheduled MessageStatus.sent
          (source 2)] := by
  have hnt0 : ¬ (0 < timeoutMs ∧ timeoutMs < elapsed 0) := by omega
  have hnt1 : ¬ (0 < timeoutMs ∧ timeoutMs < elapsed 1) := by omega
  have hnt2 : ¬ (0 < timeoutMs ∧ timeoutMs < elapsed 2) := by omega
  have hc0 : ([MessageStatus.sent] : List MessageStatus).contains (source 0).status = false := by
    rw [h0]
    rfl
  have hf0 : (source 0).status ≠ MessageStatus.failed := by
    rw [h0]
    intro hcontra
    exact absurd hcontra (by decide)
  have hc1 : ([MessageStatus.sent] : List MessageStatus).contains (source 1).status = false := by
    rw [h1]
    rfl
  have hf1 : (source 1).status ≠ MessageStatus.failed := by
    rw [h1]
    intro hcontra
    exact absurd hcontra (by decide)
  have hc2 : ([MessageStatus.sent] : List MessageStatus).contains (source 2).status = true := by
    rw [h2]
    rfl
  have hmain : waitForStatus messageId source [MessageStatus.sent] maxAttempts timeoutMs
      elapsed =
      (WaitOutcome.ok (source 2), 3,
        [StatusEvent.statusCheckStart messageId,
          StatusEvent.statusCheckDone messageId (source 0),
          StatusEvent.statusCheckStart messageId,
          StatusEvent.statusCheckDone messageId (source 1),
          StatusEvent.statusChange messageId MessageStatus.processing MessageStatus.scheduled
            (source 1),
          StatusEvent.statusCheckStart messageId,
          StatusEvent.statusCheckDone messageId (source 2),
          StatusEvent.statusChange messageId MessageStatus.scheduled MessageStatus.sent
            (source 2)]) := by
    unfold waitForStatus
    rw [waitGo_step_continue messageId source [MessageStatus.sent] timeoutMs elapsed
      maxAttempts 0 0 none (by omega) hnt0 hc0 hf0]
    rw [waitGo_step_continue messageId source [MessageStatus.sent] timeoutMs elapsed
      (maxAttempts - 1) 1 1 (some (source 0).status) (by omega) hnt1 hc1 hf1]
    rw [waitGo_step_return messageId source [MessageStatus.sent] timeoutMs elapsed
      (maxAttempts - 1 - 1) 2 2 (some (source 1).status) (by omega) hnt2 (Or.inl hc2)]
    simp [checkStatusEvents, changeEvents, h0, h1, h2]
  refine ⟨hmain, ?_⟩
  rw [hmain]
  simp [StatusEvent.isChange]

/-- C6 witness: the concrete three-call scenario at the default options. -/
theorem waitForStatus_change_notifications_witness :
    waitForStatus "m"
        (fun k =>
          if k = 0 then ⟨"m", MessageStatus.processing, none, none, none⟩
          else if k = 1 then ⟨"m", MessageStatus.scheduled, none, none, none⟩
          else ⟨"m", MessageStatus.sent, none, none, none⟩)
        [MessageStatus.sent] defaultStatusMaxAttempts defaultStatusTimeout (fun _ => 0) =
      (WaitOutcome.ok ⟨"m", MessageStatus.sent, none, none, none⟩, 3,
        [StatusEvent.statusCheckStart "m",
          StatusEvent.statusCheckDone "m" ⟨"m", MessageStatus.processing, none, none, none⟩,
          StatusEvent.statusCheckStart "m",
          StatusEvent.statusCheckDone "m" ⟨"m", MessageStatus.scheduled, none, none, none⟩,
          StatusEvent.statusChange "m" MessageStatus.processing MessageStatus.scheduled
            ⟨"m", MessageStatus.scheduled, none, none, none⟩,
          StatusEvent.statusCheckStart "m",
          StatusEvent.statusCheckDone "m" ⟨"m", MessageStatus.sent, none, none, none⟩,
          StatusEvent.statusChange "m" MessageStatus.scheduled MessageStatus.sent
            ⟨"m", MessageStatus.sent, none, none, none⟩]) :=
  (waitForStatus_change_notifications "m" _ (fun _ => 0)
    defaultStatusMaxAttempts defaultStatusTimeout (by decide) rfl rfl rfl
    (by decide) (by decide) (by decide)).1

/-- C7: with the HMAC abstracted as any function producing a nonempty hex
digest, parseWebhook succeeds exactly on the matching signature: a correct
signature over a body that parses with the required fields yields the
payload; a nonempty signature differing from the digest (any mutation of
signature, or of body whenever the digest changes) raises the
authentication error of code 401; the missing-signature, invalid-JSON and
missing-fields failures are invalid-parameter errors of code 400, so
forged and malformed inputs are distinguishable. -/
theorem parseWebhook_signature_gate (hmacSha256Hex : String → String → String)
    (parseJson : String → Option WebhookPayloadFields)
    (secretKey body signature : String) (payload : WebhookPayloadFields) :
    (signature = hmacSha256Hex secretKey body → signature ≠ "" →
      parseJson body = some payload → strTruthy payload.type = true →
      strTruthy payload.timestamp = true →
      (parseWebhook hmacSha256Hex parseJson secretKey body signature).1 =
        Except.ok payload) ∧
    (signature ≠ "" → signature ≠ hmacSha256Hex secretKey body →
      (parseWebhook hmacSha256Hex parseJson secretKey body signature).1 =
        Except.error (LoopMessageError.authError (some "Invalid webhook signature"))) ∧
    (LoopMessageError.authError (some "Invalid webhook signature")).code = 401 ∧
    ((parseWebhook hmacSha256Hex parseJson secretKey body "").1 =
      Except.error (LoopMessageError.invalidParamError "signature"
        (some "Missing webhook signature header"))) ∧
    (signature = hmacSha256Hex secretKey body → signature ≠ "" → parseJson body = none →
      (parseWebhook hmacSha256Hex parseJson secretKey body signature).1 =
        Except.error (LoopMessageError.invalidParamError "webhook"
          (some "Invalid webhook payload: invalid JSON"))) ∧
    (signature = hmacSha256Hex secretKey body → signature ≠ "" →
      parseJson body = some payload →
      ¬ (strTruthy payload.type = true ∧ strTruthy payload.timestamp = true) →
      (parseWebhook hmacSha256Hex parseJson secretKey body signature).1 =
        Except.error (LoopMessageError.invalidParamError "webhook"
          (some "Invalid webhook payload: missing required fields"))) ∧
    (∀ param details, (LoopMessageError.invalidParamError param details).code = 400) := by
  refine ⟨?_, ?_, rfl, ?_, ?_, ?_, fun _ _ => rfl⟩
  · intro heq hne hparse hty hts
    subst heq
    simp only [parseWebhook, verifySignature, if_neg hne, hparse]
    rw [if_neg (show ¬ (hmacSha256Hex secretKey body ≠ hmacSha256Hex secretKey body) from
      fun h => h rfl)]
    simp [hty, hts]
  · intro hne hdiff
    simp only [parseWebhook, verifySignature, if_neg hne, if_pos hdiff]
  · simp [parseWebhook, verifySignature]
  · intro heq hne hparse
    subst heq
    simp only [parseWebhook, verifySignature, if_neg hne, hparse]
    rw [if_neg (show ¬ (hmacSha256Hex secretKey body ≠ hmacSha256Hex secretKey body) from
      fun h => h rfl)]
  · intro heq hne hparse hbad
    subst heq
    have hor : ¬ strTruthy payload.type = true ∨ ¬ strTruthy payload.timestamp = true := by
      by_contra hcon
      push_neg at hcon
      exact hbad ⟨hcon.1, hcon.2⟩
    simp only [parseWebhook, verifySignature, if_neg hne, hparse]
    rw [if_neg (show ¬ (hmacSha256Hex secretKey body ≠ hmacSha256Hex secretKey body) from
      fun h => h rfl)]
    simp only [if_pos hor]

/-- C7 witness: concrete instantiations of each branch. -/
theorem parseWebhook_signature_gate_witness :
    ((parseWebhook (fun s b => "d:" ++ s ++ b)
        (fun _ => some ⟨some "message_inbound", some "t"⟩) "s" "b" "d:sb").1 =
      Except.ok (⟨some "message_inbound", some "t"⟩ : WebhookPayloadFields)) ∧
    ((parseWebhook (fun s b => "d:" ++ s ++ b)
        (fun _ => some ⟨some "message_inbound", some "t"⟩) "s" "b" "x").1 =
      Except.error (LoopMessageError.authError (some "Invalid webhook signature"))) := by
  have h := parseWebhook_signature_gate (fun s b => "d:" ++ s ++ b)
    (fun _ => some ⟨some "message_inbound", some "t"⟩) "s" "b" "x"
    ⟨some "message_inbound", some "t"⟩
  have h2 := parseWebhook_signature_gate (fun s b => "d:" ++ s ++ b)
    (fun _ => some ⟨some "message_inbound", some "t"⟩) "s" "b" "d:sb"
    ⟨some "message_inbound", some "t"⟩
  exact ⟨h2.1 rfl (by decide) rfl rfl rfl,
    h.2.1 (by decide) (by decide)⟩

/-- C8 counterexample: on a fully successful parse the handler dispatches
three payload notifications, not two — the payload's type event fires
twice, and the first of those carries only the timestamp, not the full
payload. -/
theorem parseWebhook_dispatch_count_is_three :
    (((parseWebhook (fun _ _ => "h") (fun _ => some ⟨some "message_inbound", some "t"⟩)
          "s" "b" "h").2.filter
        (fun ev => ev.name == "message_inbound" || ev.name == "webhook")).length = 3 ∧
      (3 : Nat) ≠ 2) ∧
    ((parseWebhook (fun _ _ => "h") (fun _ => some ⟨some "message_inbound", some "t"⟩)
        "s" "b" "h").2.filter
        (fun ev => ev.name == "message_inbound" || ev.name == "webhook"))[0]? =
      some ⟨"message_inbound", WebhookEmitPayload.tsOnly (some "t")⟩ := by
  constructor
  · constructor
    · rfl
    · decide
  · rfl

/-- C8 (amended): for every webhook body passing signature verification,
JSON parsing and field validation, parseWebhook returns the parsed payload
and dispatches — after the received and verified lifecycle notifications —
three notifications: two on the payload's type event name, the first
carrying only the timestamp and the second the full payload, and one
generic webhook notification carrying the full payload. -/
theorem parseWebhook_success_dispatch (hmacSha256Hex : String → String → String)
    (parseJson : String → Option WebhookPayloadFields)
    (secretKey body signature : String) (payload : WebhookPayloadFields)
    (heq : signature = hmacSha256Hex secretKey body) (hne : signature ≠ "")
    (hparse : parseJson body = some payload)
    (hty : strTruthy payload.type = true) (hts : strTruthy payload.timestamp = true) :
    parseWebhook hmacSha256Hex parseJson secretKey body signature =
      (Except.ok payload,
        [⟨"webhook_received", WebhookEmitPayload.meta⟩,
          ⟨"webhook_verified", WebhookEmitPayload.meta⟩,
          ⟨payload.type.getD "", WebhookEmitPayload.tsOnly payload.timestamp⟩,
          ⟨payload.type.getD "", WebhookEmitPayload.full payload⟩,
          ⟨"webhook", WebhookEmitPayload.full payload⟩]) := by
  subst heq
  simp only [parseWebhook, verifySignature, if_neg hne, hparse]
  rw [if_neg (show ¬ (hmacSha256Hex secretKey body ≠ hmacSha256Hex secretKey body) from
    fun h => h rfl)]
  simp [hty, hts]

/-- C8 witness: the concrete successful parse and its emission trace. -/
theorem parseWebhook_success_dispatch_witness :
    parseWebhook (fun s b => "d:" ++ s ++ b)
        (fun _ => some ⟨some "message_inbound", some "t"⟩) "s" "b" "d:sb" =
      (Except.ok (⟨some "message_inbound", some "t"⟩ : WebhookPayloadFields),
        [⟨"webhook_received", WebhookEmitPayload.meta⟩,
          ⟨"webhook_verified", WebhookEmitPayload.meta⟩,
          ⟨"message_inbound", WebhookEmitPayload.tsOnly (some "t")⟩,
          ⟨"message_inbound", WebhookEmitPayload.full ⟨some "message_inbound", some "t"⟩⟩,
          ⟨"webhook", WebhookEmitPayload.full ⟨some "message_inbound", some "t"⟩⟩]) :=
  parseWebhook_success_dispatch (fun s b => "d:" ++ s ++ b)
    (fun _ => some ⟨some "message_inbound", some "t"⟩) "s" "b" "d:sb"
    ⟨some "message_inbound", some "t"⟩ rfl (by decide) rfl rfl rfl

/-- Every error produced by validateMessageText has code 400. -/
theorem validateMessageText_code (t : Option String) (e : LoopMessageError)
    (h : validateMessageText t = some e) : e.code = 400 := by
  unfold validateMessageText at h
  split at h
  · cases h
    rfl
  · split at h
    · cases h
      rfl
    · cases h

/-- Every error produced by validateRecipient has code 400. -/
theorem validateRecipient_code (r : String) (e : LoopMessageError)
    (h : validateRecipient r = some e) : e.code = 400 := by
  unfold validateRecipient at h
  split at h <;> split at h <;> (try cases h) <;> rfl

/-- Every error produced by validateUrl has code 400. -/
theorem validateUrl_code (u : String → Bool) (url paramName : String) (e : LoopMessageError)
    (h : validateUrl u url paramName = some e) : e.code = 400 := by
  unfold validateUrl at h
  split at h
  · cases h
    rfl
  · split at h
    · cases h
      rfl
    · cases h

/-- Every error produced by validateAttachments has code 400. -/
theorem validateAttachments_code (u : String → Bool) (l : List String) (e : LoopMessageError)
    (h : validateAttachments u l = some e) : e.code = 400 := by
  unfold validateAttachments at h
  split at h
  · cases h
  · split at h
    · cases h
      rfl
    · obtain ⟨url, _, hurl⟩ := List.exists_of_findSome?_eq_some h
      exact validateUrl_code u url "attachments" e hurl

/-- Every error produced by validateMessageEffect has code 400. -/
theorem validateMessageEffect_code (s : String) (e : LoopMessageError)
    (h : validateMessageEffect s = some e) : e.code = 400 := by
  unfold validateMessageEffect at h
  split at h
  · cases h
  · cases h
    rfl

/-- Every error produced by validateMessageReaction has code 400. -/
theorem validateMessageReaction_code (s : String) (e : LoopMessageError)
    (h : validateMessageReaction s = some e) : e.code = 400 := by
  unfold validateMessageReaction at h
  split at h
  · cases h
  · cases h
    rfl

/-- Every error a send-validation check can produce has code 400: all
branches throw missingParamError or invalidParamError. -/
theorem messageChecks_code400 (u : String → Bool) (p : SendMessageParams)
    (e : LoopMessageError) (h : some e ∈ messageChecks u p) : e.code = 400 := by
  simp only [messageChecks, List.mem_cons, List.not_mem_nil, or_false] at h
  rcases h with h | h | h | h | h | h | h | h | h | h | h | h | h | h | h | h
  · split at h
    · cases h
      rfl
    · cases h
  · split at h
    · cases h
      rfl
    · cases h
  · exact validateMessageText_code p.text e h.symm
  · split at h
    · exact validateRecipient_code _ e h.symm
    · cases h
  · split at h
    · exact validateAttachments_code u _ e h.symm
    · cases h
  · split at h
    · cases h
      rfl
    · cases h
  · split at h
    · cases h
      rfl
    · cases h
  · split at h
    · cases h
      rfl
    · cases h
  · split at h
    · exact validateMessageEffect_code _ e h.symm
    · cases h
  · split at h
    · exact validateMessageReaction_code _ e h.symm
    · cases h
  · split at h
    · cases h
      rfl
    · cases h
  · split at h
    · cases h
      rfl
    · cases h
  · split at h
    · cases h
      rfl
    · cases h
  · split at h
    · split at h
      · cases h
        rfl
      · cases h
    · cases h
  · split at h
    · exact validateUrl_code u _ "status_callback" e h.symm
    · cases h
  · split at h
    · split at h
      · cases h
        rfl
      · cases h
    · cases h

/-- When validation passes, none of the four claimed rejection conditions
holds. -/
theorem validateMessageParams_none_conditions (u : String → Bool) (p : SendMessageParams)
    (h : validateMessageParams u p = none) :
    ¬ (¬ strTruthy p.recipient = true ∧ ¬ strTruthy p.group = true) ∧
    ¬ (strTruthy p.recipient = true ∧ strTruthy p.group = true) ∧
    ¬ (strTruthy p.reaction = true ∧ ¬ strTruthy p.message_id = true) ∧
    ¬ (strTruthy p.effect = true ∧ strTruthy p.reaction = true) := by
  unfold validateMessageParams messageChecks at h
  rw [List.findSome?_eq_none_iff] at h
  simp only [List.forall_mem_cons, id] at h
  refine ⟨?_, ?_, ?_, ?_⟩ <;> intro hc
  · have := h.1
    rw [if_pos hc] at this
    cases this
  · have := h.2.1
    rw [if_pos hc] at this
    cases this
  · have := h.2.2.2.2.2.2.1
    rw [if_pos hc] at this
    cases this
  · have := h.2.2.2.2.2.2.2.1
    rw [if_pos hc] at this
    cases this

/-- C9: a send call with (a) both recipient and group, (b) neither
recipient nor group, (c) a reaction but no message_id, or (d) both an
effect and a reaction, rejects with a code-400 classified error and never
reaches the network. -/
theorem send_validation_rejects_before_network (u : String → Bool) (senderName : String)
    (net : SendMessageParams → Except LoopMessageError LoopMessageSendResponse)
    (p : SendMessageParams)
    (h : (strTruthy p.recipient = true ∧ strTruthy p.group = true) ∨
      (¬ strTruthy p.recipient = true ∧ ¬ strTruthy p.group = true) ∨
      (strTruthy p.reaction = true ∧ ¬ strTruthy p.message_id = true) ∨
      (strTruthy p.effect = true ∧ strTruthy p.reaction = true)) :
    ∃ e, sendLoopMessage u senderName net p = (Except.error e, false) ∧ e.code = 400 := by
  cases hv : validateMessageParams u (setSenderName p senderName) with
  | some e =>
    refine ⟨e, ?_, ?_⟩
    · simp [sendLoopMessage, hv]
    · exact messageChecks_code400 u (setSenderName p senderName) e (mem_of_findSome?_id hv)
  | none =>
    exfalso
    have hcond := validateMessageParams_none_conditions u (setSenderName p senderName) hv
    rcases h with hx | hx | hx | hx
    · exact hcond.2.1 hx
    · exact hcond.1 hx
    · exact hcond.2.2.1 hx
    · exact hcond.2.2.2 hx

/-- C9 witness: a call with both recipient and group rejects with a 400
error without reaching the network stub. -/
theorem send_validation_rejects_before_network_witness :
    ∃ e, sendLoopMessage (fun _ => true) "s@x.co" (fun _ => Except.ok ⟨"abc", true⟩)
        ⟨some "+13231112233", some "group-id", some "hi", none, false, none, none, none,
          none, none, none, none, none, none, none, none⟩ =
      (Except.error e, false) ∧ e.code = 400 :=
  send_validation_rejects_before_network (fun _ => true) "s@x.co"
    (fun _ => Except.ok ⟨"abc", true⟩)
    ⟨some "+13231112233", some "group-id", some "hi", none, false, none, none, none,
      none, none, none, none, none, none, none, none⟩
    (Or.inl (by decide))

end Loop
